import Mathlib

/-!
A shallow embedding, in Lean 4, of the Indeed scraper of JobFunnel
(`src/jobfunnel/backend/scrapers/indeed.py`), together with theorems that
settle the specification claims about it.  Python string primitives used by
the scraper (`str.replace` with a one-character pattern, `str.strip`,
`str.upper`, and the regex searches that the scraper performs) are modelled
as executable functions on `List Char`; fallible Python code (raised
exceptions) is modelled with `Except`.
-/

namespace JobFunnel

/-! Python string primitives, modelled over character lists. -/

/-- Python `s.replace(old, new)` restricted to a one-character `old`, the only
form the scraper uses (stripping `","` or `"."`, turning spaces into `+`). -/
def py_replace_char (old : Char) (new : List Char) (s : List Char) : List Char :=
  s.flatMap (fun a => if a = old then new else [a])

/-- Python `s.strip()`: drop leading and trailing whitespace. -/
def py_strip (s : List Char) : List Char :=
  ((s.dropWhile Char.isWhitespace).reverse.dropWhile Char.isWhitespace).reverse

/-- Python `s.upper()` (the scraper only upper-cases ASCII province codes). -/
def py_upper (s : List Char) : List Char := s.map Char.toUpper

/-- Numeric value of a digit run, as produced by Python `int("...")`. -/
def digitsToNat (ds : List Char) : Nat :=
  ds.foldl (fun n c => 10 * n + (c.toNat - 48)) 0

/-- First match of the Python regex `f (\d+) ` used at indeed.py line 296:
scan left to right for a literal `f`, a space, a maximal nonempty digit run,
and a following space; return the digit run captured by the group.  `findall`
followed by `[0]` in the source is exactly this first match (`none` models
the `IndexError` raised by `[0]` when there is no match). -/
def findFirstCount : List Char → Option (List Char)
  | [] => none
  | c :: rest =>
    if c = 'f' then
      match rest with
      | ' ' :: rest2 =>
        let ds := rest2.takeWhile Char.isDigit
        let after := rest2.dropWhile Char.isDigit
        if ds ≠ [] ∧ after.head? = some ' ' then some ds
        else findFirstCount rest
      | _ => findFirstCount rest
    else findFirstCount rest

/-! The data model of the scraper. -/

/-- Python exceptions raised by the scraper (indeed.py). -/
inductive PyError
  | valueError (msg : String)
  | notImplementedError (msg : String)
  | assertionError
  | attributeError
  | indexError
  | keyError
  | requestError
deriving DecidableEq

/-- `jobfunnel.resources.Remoteness`. -/
inductive Remoteness
  | IN_PERSON
  | TEMPORARILY_REMOTE
  | PARTIALLY_REMOTE
  | FULLY_REMOTE
  | ANY
  | UNKNOWN
deriving DecidableEq

/-- `jobfunnel.resources.JobField`, restricted to the fields indeed.py names. -/
inductive JobField
  | TITLE
  | COMPANY
  | LOCATION
  | TAGS
  | REMOTENESS
  | WAGE
  | POST_DATE
  | KEY_ID
  | URL
  | RAW
  | DESCRIPTION
deriving DecidableEq

/-- Python `JobField.name` (the enum member name). -/
def JobField.name : JobField → String
  | .TITLE => "TITLE"
  | .COMPANY => "COMPANY"
  | .LOCATION => "LOCATION"
  | .TAGS => "TAGS"
  | .REMOTENESS => "REMOTENESS"
  | .WAGE => "WAGE"
  | .POST_DATE => "POST_DATE"
  | .KEY_ID => "KEY_ID"
  | .URL => "URL"
  | .RAW => "RAW"
  | .DESCRIPTION => "DESCRIPTION"

/-- indeed.py line 26: `MAX_RESULTS_PER_INDEED_PAGE = 50`. -/
def MAX_RESULTS_PER_INDEED_PAGE : Nat := 50

/-- indeed.py line 28. -/
def FULLY_REMOTE_MAGIC_STRING : String :=
  "&remotejob=032b3046-06a3-4876-8dfd-474eb5e7ed11"

/-- indeed.py line 29. -/
def COVID_REMOTE_MAGIC_STRING : String :=
  "&remotejob=7e3167e4-ccb4-49cb-b761-9bae564a0a63"

/-- indeed.py lines 30-36: the `REMOTENESS_TO_QUERY` dict.  The dict has no
entry for `UNKNOWN`, so looking that key up raises `KeyError`; the lookup is
therefore partial (`Option`). -/
def REMOTENESS_TO_QUERY : Remoteness → Option String
  | .IN_PERSON => some ""
  | .TEMPORARILY_REMOTE => some COVID_REMOTE_MAGIC_STRING
  | .PARTIALLY_REMOTE => some ""
  | .FULLY_REMOTE => some FULLY_REMOTE_MAGIC_STRING
  | .ANY => some ""
  | .UNKNOWN => none

/-- The slice of `config.search_config` that indeed.py reads. -/
structure SearchConfig where
  keywords : List String
  city : String
  province_or_state : String
  domain : String
  radius : Int
  return_similar_results : Bool
  remoteness : Remoteness
deriving DecidableEq

/-- indeed.py line 53: `self.query = '+'.join(keywords)`. -/
def mkQuery (keywords : List String) : String := String.intercalate "+" keywords

/-- The detail page fetched for one job, as far as `set` inspects it: `find`
with `id='jobDescriptionText'` either yields a node (modelled by its `.text`)
or `None`. -/
structure RawPage where
  jobDescriptionText : Option String
deriving DecidableEq

/-- The slots of `jobfunnel.backend.Job` that indeed.py reads or writes in its
`set` branches, plus the get-phase slots, so that frame properties are
meaningful. -/
structure Job where
  title : Option String
  company : Option String
  location : Option String
  tags : List String
  wage : Option String
  key_id : Option String
  url : Option String
  _raw_scrape_data : Option RawPage
  description : Option String
deriving DecidableEq

/-- A fetched search-results page, as far as pagination inspects it:
`find(id='searchCountPages')` either yields the results-summary node
(modelled by the text `node.contents[0]`) or `None`. -/
structure SearchResultsSoup where
  searchCountPages : Option String
deriving DecidableEq

/-! The operations of the scraper. -/

/-- indeed.py lines 236-254: `BaseIndeedScraper._quantize_radius`. -/
def _quantize_radius (radius : Int) : Int :=
  if radius < 5 then 0
  else if 5 ≤ radius ∧ radius < 10 then 5
  else if 10 ≤ radius ∧ radius < 15 then 10
  else if 15 ≤ radius ∧ radius < 25 then 15
  else if 25 ≤ radius ∧ radius < 50 then 25
  else if 50 ≤ radius ∧ radius < 100 then 50
  else 100

/-- indeed.py lines 224-234: `BaseIndeedScraper._get_search_url`.  Only the
f-string of the `'get'` branch is evaluated in that branch (including the
`REMOTENESS_TO_QUERY` lookup); `'post'` raises a bare `NotImplementedError`
and anything else raises `ValueError(f'No html method {method} exists')`. -/
def _get_search_url (cfg : SearchConfig) (query : String) (method : String) :
    Except PyError String :=
  if method = "get" then
    match REMOTENESS_TO_QUERY cfg.remoteness with
    | none => .error .keyError
    | some remote_frag =>
      .ok ("https://www.indeed." ++ cfg.domain ++ "/jobs?q=" ++ query
        ++ "&l=" ++ String.mk (py_replace_char ' ' ['+'] cfg.city.data)
        ++ "%2C+" ++ String.mk (py_upper cfg.province_or_state.data)
        ++ "&radius=" ++ toString (_quantize_radius cfg.radius)
        ++ "&limit=" ++ toString MAX_RESULTS_PER_INDEED_PAGE
        ++ "&filter=" ++ (if cfg.return_similar_results then "1" else "0")
        ++ remote_frag)
  else if method = "post" then .error (.notImplementedError "")
  else .error (.valueError ("No html method " ++ method ++ " exists"))

/-- indeed.py lines 295-296, the default-locale result-count parse:
`num_res.contents[0].strip()`, then `.replace(',', '')`, then the first match
of `f (\d+) ` converted by `int`. -/
def parse_num_res (node_text : String) : Option Nat :=
  (findFirstCount (py_replace_char ',' [] (py_strip node_text.data))).map digitsToNat

/-- The message of the `ValueError` raised at indeed.py lines 290-292. -/
def noResultsErrorMsg (search_url : String) : String :=
  "Unable to identify number of pages of results for query: " ++ search_url
    ++ " Please ensure linked page contains results, you may have provided a city for which there are no results within this province or state."

/-- indeed.py lines 271-301: `BaseIndeedScraper._get_num_search_result_pages`.
The network fetch and HTML parse are modelled by taking the already-parsed
response `query_resp`.  `int(ceil(num_res / 50))` on naturals is the ceiling
division `(num_res + 50 - 1) / 50` (proved against `Int.ceil` below). -/
def _get_num_search_result_pages (query_resp : SearchResultsSoup)
    (search_url : String) (max_pages : Int) : Except PyError Int :=
  match query_resp.searchCountPages with
  | none => .error (.valueError (noResultsErrorMsg search_url))
  | some node_text =>
    match parse_num_res node_text with
    | none => .error .indexError
    | some num_res =>
      let number_of_pages : Int :=
        (((num_res + MAX_RESULTS_PER_INDEED_PAGE - 1) / MAX_RESULTS_PER_INDEED_PAGE : Nat) : Int)
      if max_pages = 0 ∨ number_of_pages < max_pages then .ok number_of_pages
      else .ok max_pages

/-- indeed.py line 264: the URL requested for one result page,
`f'{search}&start={int(page * self.max_results_per_page)}'`. -/
def _get_job_soups_from_search_page_url (search : String) (page : Nat) : String :=
  search ++ "&start=" ++ toString (page * MAX_RESULTS_PER_INDEED_PAGE)

/-- indeed.py lines 136-144: the page-fetch tasks submitted by
`get_job_soups_from_search_result_listings`, one per `page in range(pages)`,
identified by the URL each task requests. -/
def submitted_page_urls (search : String) (pages : Nat) : List String :=
  (List.range pages).map (fun page => _get_job_soups_from_search_page_url search page)

/-- indeed.py lines 202-222: `BaseIndeedScraper.set`.  `session.get` and
`BeautifulSoup(..., parser)` are modelled by the parameters `session_get` and
`bs4_parse`; the unused `soup` argument of the Python method is omitted.
`assert job.key_id` fails on `None` and on the empty string (Python
truthiness); `assert job._raw_scrape_data` fails exactly on `None` (bs4 tags
are truthy); a detail page without a `jobDescriptionText` node makes
`.find(...).text` raise `AttributeError`; `RAW` with no URL set makes
`session.get(None)` raise (modelled `requestError`). -/
def set (domain : String) (session_get : String → String)
    (bs4_parse : String → RawPage) (parameter : JobField) (job : Job) :
    Except PyError Job :=
  match parameter with
  | .RAW =>
    match job.url with
    | none => .error .requestError
    | some u => .ok { job with _raw_scrape_data := some (bs4_parse (session_get u)) }
  | .DESCRIPTION =>
    match job._raw_scrape_data with
    | none => .error .assertionError
    | some raw =>
      match raw.jobDescriptionText with
      | none => .error .attributeError
      | some t => .ok { job with description := some (String.mk (py_strip t.data)) }
  | .URL =>
    match job.key_id with
    | none => .error .assertionError
    | some k =>
      if k = "" then .error .assertionError
      else .ok { job with url := some ("http://www.indeed." ++ domain ++ "/viewjob?jk=" ++ k) }
  | p => .error (.notImplementedError ("Cannot set " ++ p.name))

/-- Holds when a call fails the way the spec's InvalidArgument
(unsupported-method) condition describes: with a `ValueError`. -/
def failsWithValueError : Except PyError String → Bool
  | .error (.valueError _) => true
  | _ => false

/-! Concrete inputs for the end-to-end scenario of the spec. -/

/-- The spec's end-to-end scenario search parameters: keywords
`["data","engineer"]`, Toronto ON, radius 12, remoteness ANY, on the
Canadian-English locale (domain `ca`). -/
def torontoSearchConfig : SearchConfig :=
  { keywords := ["data", "engineer"]
    city := "Toronto"
    province_or_state := "ON"
    domain := "ca"
    radius := 12
    return_similar_results := false
    remoteness := .ANY }

/-- The search URL the builder produces for `torontoSearchConfig`. -/
def torontoSearchUrl : String :=
  "https://www.indeed.ca/jobs?q=data+engineer&l=Toronto%2C+ON&radius=10&limit=50&filter=0"

/-! Helper lemmas shared by the pagination theorems. -/

/-- Python `int(ceil(num_res / 50))` on a natural `num_res` is the ceiling of
the exact rational division: the form computed by
`_get_num_search_result_pages` equals `⌈num_res / 50⌉`. -/
theorem ceil_div_page (n : Nat) :
    (((n + MAX_RESULTS_PER_INDEED_PAGE - 1) / MAX_RESULTS_PER_INDEED_PAGE : Nat) : Int) =
      ⌈(n : ℚ) / 50⌉ := by
  have h0 : n + MAX_RESULTS_PER_INDEED_PAGE - 1 = n + 49 := by
    simp only [MAX_RESULTS_PER_INDEED_PAGE]
    omega
  rw [h0]
  simp only [MAX_RESULTS_PER_INDEED_PAGE]
  have h1 : 50 * ((n + 49) / 50) ≤ n + 49 := by omega
  have h2 : n ≤ 50 * ((n + 49) / 50) := by omega
  generalize hm : (n + 49) / 50 = m at h1 h2
  have hq1 : (50 : ℚ) * m ≤ (n : ℚ) + 49 := by exact_mod_cast h1
  have hq2 : (n : ℚ) ≤ (50 : ℚ) * m := by exact_mod_cast h2
  symm
  rw [Int.ceil_eq_iff]
  constructor
  · push_cast
    rw [lt_div_iff₀ (show (0:ℚ) < 50 by norm_num)]
    linarith
  · push_cast
    rw [div_le_iff₀ (show (0:ℚ) < 50 by norm_num)]
    linarith

/-- Unfolding of `_get_num_search_result_pages` on a response whose
results-summary text parses. -/
theorem get_num_pages_unfold (resp : SearchResultsSoup)
    (search_url node_text : String) (num_res : Nat) (max_pages : Int)
    (hnode : resp.searchCountPages = some node_text)
    (hparse : parse_num_res node_text = some num_res) :
    _get_num_search_result_pages resp search_url max_pages =
      if max_pages = 0 ∨
          (((num_res + MAX_RESULTS_PER_INDEED_PAGE - 1) / MAX_RESULTS_PER_INDEED_PAGE : Nat) : Int)
            < max_pages
      then .ok (((num_res + MAX_RESULTS_PER_INDEED_PAGE - 1) / MAX_RESULTS_PER_INDEED_PAGE : Nat) : Int)
      else .ok max_pages := by
  simp only [_get_num_search_result_pages, hnode, hparse]

/-! The claim theorems. -/

/-- C1: for every totalResults parsed from the results-summary node, with the
fixed page size 50, `_get_num_search_result_pages` returns
`⌈totalResults / 50⌉` when `max_pages = 0` (uncapped), and
`min(pageCount, max_pages)` when `max_pages > 0`. -/
theorem resolve_page_count_ceil_and_cap (resp : SearchResultsSoup)
    (search_url node_text : String) (num_res : Nat) (max_pages : Int)
    (hnode : resp.searchCountPages = some node_text)
    (hparse : parse_num_res node_text = some num_res) :
    _get_num_search_result_pages resp search_url 0 = .ok ⌈(num_res : ℚ) / 50⌉ ∧
    (0 < max_pages →
      _get_num_search_result_pages resp search_url max_pages =
        .ok (min ⌈(num_res : ℚ) / 50⌉ max_pages)) := by
  have hceil := ceil_div_page num_res
  rw [get_num_pages_unfold resp search_url node_text num_res 0 hnode hparse,
    get_num_pages_unfold resp search_url node_text num_res max_pages hnode hparse,
    ← hceil]
  set pc : Int :=
    (((num_res + MAX_RESULTS_PER_INDEED_PAGE - 1) / MAX_RESULTS_PER_INDEED_PAGE : Nat) : Int)
    with hdef
  constructor
  · simp
  · intro hmp
    split_ifs with h
    · have hmin : min pc max_pages = pc := by omega
      rw [hmin]
    · have hmin : min pc max_pages = max_pages := by omega
      rw [hmin]

/-- C1 witness: the summary `"Jobs 1 to 50 of 1,234 results"` yields 25 pages
uncapped, and 3 pages when `max_pages = 3`. -/
theorem resolve_page_count_ceil_and_cap_witness :
    _get_num_search_result_pages ⟨some "Jobs 1 to 50 of 1,234 results"⟩ "u" 0 = .ok 25 ∧
    _get_num_search_result_pages ⟨some "Jobs 1 to 50 of 1,234 results"⟩ "u" 3 = .ok 3 := by
  have h := resolve_page_count_ceil_and_cap ⟨some "Jobs 1 to 50 of 1,234 results"⟩ "u"
    "Jobs 1 to 50 of 1,234 results" 1234 3 rfl rfl
  have hc : ⌈((1234 : Nat) : ℚ) / 50⌉ = 25 := by
    rw [← ceil_div_page 1234]
    rfl
  rw [hc] at h
  refine ⟨h.1, ?_⟩
  have h2 := h.2 (by norm_num)
  norm_num at h2
  exact h2

/-- C9: when `max_pages` is negative, `_get_num_search_result_pages` returns
`max_pages` itself: the computed non-negative page count is never below a
negative cap, so the `else` branch returns the cap unchanged. -/
theorem negative_max_pages_passthrough (resp : SearchResultsSoup)
    (search_url node_text : String) (num_res : Nat) (max_pages : Int)
    (hnode : resp.searchCountPages = some node_text)
    (hparse : parse_num_res node_text = some num_res)
    (hneg : max_pages < 0) :
    _get_num_search_result_pages resp search_url max_pages = .ok max_pages := by
  rw [get_num_pages_unfold resp search_url node_text num_res max_pages hnode hparse]
  have hnn : (0:Int) ≤
      (((num_res + MAX_RESULTS_PER_INDEED_PAGE - 1) / MAX_RESULTS_PER_INDEED_PAGE : Nat) : Int) :=
    Int.natCast_nonneg _
  split_ifs with h
  · exact absurd h (by omega)
  · rfl

/-- C9 witness: with 1,234 parsed results and `max_pages = -2` the function
returns `-2`. -/
theorem negative_max_pages_passthrough_witness :
    _get_num_search_result_pages ⟨some "Jobs 1 to 50 of 1,234 results"⟩ "u" (-2) = .ok (-2) :=
  negative_max_pages_passthrough ⟨some "Jobs 1 to 50 of 1,234 results"⟩ "u"
    "Jobs 1 to 50 of 1,234 results" 1234 (-2) rfl rfl (by norm_num)

/-- C6: the results-summary string `"Jobs 1 to 50 of 1,234 results"`, stripped
of comma thousands separators and matched by `f (\d+) `, parses to 1234. -/
theorem default_locale_count_parse :
    parse_num_res "Jobs 1 to 50 of 1,234 results" = some 1234 := by rfl

/-- C7: a fetched page with no `searchCountPages` node makes
`_get_num_search_result_pages` fail with the `ValueError` whose message, which
contains the offending search URL, is produced at indeed.py lines 290-292; no
page count is returned. -/
theorem missing_results_summary_fails (resp : SearchResultsSoup)
    (search_url : String) (max_pages : Int)
    (habs : resp.searchCountPages = none) :
    _get_num_search_result_pages resp search_url max_pages =
      .error (.valueError (noResultsErrorMsg search_url)) ∧
    search_url.data <:+: (noResultsErrorMsg search_url).data := by
  constructor
  · simp only [_get_num_search_result_pages, habs]
  · refine ⟨"Unable to identify number of pages of results for query: ".data,
      " Please ensure linked page contains results, you may have provided a city for which there are no results within this province or state.".data,
      ?_⟩
    simp [noResultsErrorMsg, String.data_append]

/-- C7 witness: the failure on a summary-free page, at the URL `"myquery"`. -/
theorem missing_results_summary_fails_witness :
    _get_num_search_result_pages ⟨none⟩ "myquery" 0 =
      .error (.valueError (noResultsErrorMsg "myquery")) ∧
    "myquery".data <:+: (noResultsErrorMsg "myquery").data :=
  missing_results_summary_fails ⟨none⟩ "myquery" 0 rfl

/-- C4: for every radius `r ≥ 0`, `_quantize_radius r` follows the half-open
interval table `[0,5)→0, [5,10)→5, [10,15)→10, [15,25)→15, [25,50)→25,
[50,100)→50, [100,∞)→100`. -/
theorem quantize_radius_table (r : Int) (h : 0 ≤ r) :
    (r < 5 → _quantize_radius r = 0) ∧
    (5 ≤ r ∧ r < 10 → _quantize_radius r = 5) ∧
    (10 ≤ r ∧ r < 15 → _quantize_radius r = 10) ∧
    (15 ≤ r ∧ r < 25 → _quantize_radius r = 15) ∧
    (25 ≤ r ∧ r < 50 → _quantize_radius r = 25) ∧
    (50 ≤ r ∧ r < 100 → _quantize_radius r = 50) ∧
    (100 ≤ r → _quantize_radius r = 100) := by
  unfold _quantize_radius
  refine ⟨?_, ?_, ?_, ?_, ?_, ?_, ?_⟩ <;> intro hr <;> split_ifs <;> omega

/-- C4 witness: radius 12 lies in `[10,15)` and quantizes to 10. -/
theorem quantize_radius_table_witness :
    (0 : Int) ≤ 12 ∧ _quantize_radius 12 = 10 :=
  ⟨by norm_num, (quantize_radius_table 12 (by norm_num)).2.2.1 ⟨by norm_num, by norm_num⟩⟩

/-- C5: for every radius, including negative ones, `_quantize_radius` lands in
`{0, 5, 10, 15, 25, 50, 100}`, and it is monotonically non-decreasing. -/
theorem quantize_radius_range_and_monotone :
    (∀ r : Int, _quantize_radius r ∈ ([0, 5, 10, 15, 25, 50, 100] : List Int)) ∧
    (∀ r1 r2 : Int, r1 ≤ r2 → _quantize_radius r1 ≤ _quantize_radius r2) := by
  constructor
  · intro r
    unfold _quantize_radius
    split_ifs <;> simp
  · intro r1 r2 h
    unfold _quantize_radius
    split_ifs <;> omega

/-- C5 witness: the range fact at the negative radius `-3` and monotonicity at
`-3 ≤ 7`. -/
theorem quantize_radius_range_and_monotone_witness :
    _quantize_radius (-3) ∈ ([0, 5, 10, 15, 25, 50, 100] : List Int) ∧
    ((-3 : Int) ≤ 7 ∧ _quantize_radius (-3) ≤ _quantize_radius 7) :=
  ⟨quantize_radius_range_and_monotone.1 (-3),
    by norm_num, quantize_radius_range_and_monotone.2 (-3) 7 (by norm_num)⟩

/-- A job record with every slot unset, for concrete witnesses. -/
def emptyJob : Job := ⟨none, none, none, [], none, none, none, none, none⟩

/-- `emptyJob` with the key id `"abc123"`. -/
def jobAbc : Job := { emptyJob with key_id := some "abc123" }

/-- `emptyJob` with the key id `"k1"`. -/
def jobWithKey : Job := { emptyJob with key_id := some "k1" }

/-- C2: `set URL` fails with the AssertionError (the PreconditionViolation)
when KEY_ID is unset; with KEY_ID `"abc123"` it deterministically assigns the
detail-page URL `http://www.indeed.<domain>/viewjob?jk=abc123`; and
`set DESCRIPTION` fails with the AssertionError when RAW is unset. -/
theorem set_preconditions_and_url (domain : String) (session_get : String → String)
    (bs4_parse : String → RawPage) :
    (∀ job : Job, job.key_id = none →
      set domain session_get bs4_parse .URL job = .error .assertionError) ∧
    (∀ job : Job, job.key_id = some "abc123" →
      set domain session_get bs4_parse .URL job =
        .ok { job with url := some ("http://www.indeed." ++ domain ++ "/viewjob?jk=" ++ "abc123") }) ∧
    (∀ job : Job, job._raw_scrape_data = none →
      set domain session_get bs4_parse .DESCRIPTION job = .error .assertionError) := by
  refine ⟨?_, ?_, ?_⟩ <;> intro job hj <;> simp [set, hj]

/-- C2 witness: the failures on `emptyJob` and the URL actually assigned on
`jobAbc`, over the `ca` domain. -/
theorem set_preconditions_and_url_witness :
    set "ca" (fun _ => "") (fun _ => ⟨none⟩) .URL emptyJob = .error .assertionError ∧
    set "ca" (fun _ => "") (fun _ => ⟨none⟩) .URL jobAbc =
      .ok { jobAbc with url := some ("http://www.indeed." ++ "ca" ++ "/viewjob?jk=" ++ "abc123") } ∧
    set "ca" (fun _ => "") (fun _ => ⟨none⟩) .DESCRIPTION emptyJob = .error .assertionError :=
  ⟨(set_preconditions_and_url "ca" (fun _ => "") (fun _ => ⟨none⟩)).1 emptyJob rfl,
    (set_preconditions_and_url "ca" (fun _ => "") (fun _ => ⟨none⟩)).2.1 jobAbc rfl,
    (set_preconditions_and_url "ca" (fun _ => "") (fun _ => ⟨none⟩)).2.2 emptyJob rfl⟩

/-- C10: each successful `set` writes exactly its own slot and leaves every
other field of the job unchanged: `URL` writes only `url`, `RAW` writes only
`_raw_scrape_data`, `DESCRIPTION` writes only `description`. -/
theorem set_single_slot_frame (domain : String) (session_get : String → String)
    (bs4_parse : String → RawPage) :
    (∀ job j' : Job, set domain session_get bs4_parse .URL job = .ok j' →
      j'.title = job.title ∧ j'.company = job.company ∧ j'.location = job.location ∧
      j'.tags = job.tags ∧ j'.wage = job.wage ∧ j'.key_id = job.key_id ∧
      j'._raw_scrape_data = job._raw_scrape_data ∧ j'.description = job.description) ∧
    (∀ job j' : Job, set domain session_get bs4_parse .RAW job = .ok j' →
      j'.title = job.title ∧ j'.company = job.company ∧ j'.location = job.location ∧
      j'.tags = job.tags ∧ j'.wage = job.wage ∧ j'.key_id = job.key_id ∧
      j'.url = job.url ∧ j'.description = job.description) ∧
    (∀ job j' : Job, set domain session_get bs4_parse .DESCRIPTION job = .ok j' →
      j'.title = job.title ∧ j'.company = job.company ∧ j'.location = job.location ∧
      j'.tags = job.tags ∧ j'.wage = job.wage ∧ j'.key_id = job.key_id ∧
      j'.url = job.url ∧ j'._raw_scrape_data = job._raw_scrape_data) := by
  refine ⟨?_, ?_, ?_⟩
  · intro job j' h
    cases hk : job.key_id with
    | none => simp [set, hk] at h
    | some k =>
      simp only [set, hk] at h
      split_ifs at h
      rw [Except.ok.injEq] at h
      subst h
      simp
  · intro job j' h
    cases hu : job.url with
    | none => simp [set, hu] at h
    | some u =>
      simp only [set, hu, Except.ok.injEq] at h
      subst h
      simp
  · intro job j' h
    cases hr : job._raw_scrape_data with
    | none => simp [set, hr] at h
    | some raw =>
      cases hd : raw.jobDescriptionText with
      | none => simp [set, hr, hd] at h
      | some t =>
        simp only [set, hr, hd, Except.ok.injEq] at h
        subst h
        simp

/-- C10 witness: the frame of `set URL` on the concrete record `jobWithKey`. -/
theorem set_single_slot_frame_witness :
    (let j' : Job := { jobWithKey with url := some "http://www.indeed.ca/viewjob?jk=k1" }
     j'.title = jobWithKey.title ∧ j'.company = jobWithKey.company ∧
     j'.location = jobWithKey.location ∧ j'.tags = jobWithKey.tags ∧
     j'.wage = jobWithKey.wage ∧ j'.key_id = jobWithKey.key_id ∧
     j'._raw_scrape_data = jobWithKey._raw_scrape_data ∧
     j'.description = jobWithKey.description) :=
  (set_single_slot_frame "ca" (fun _ => "") (fun _ => ⟨none⟩)).1 jobWithKey
    { jobWithKey with url := some "http://www.indeed.ca/viewjob?jk=k1" } rfl

/-- C3 counterexample: at `method = "post"` the builder fails, but with a bare
`NotImplementedError`, not with the `ValueError` that renders the
InvalidArgument (unsupported-method) condition; so not every non-`"get"`
method fails with that condition. -/
theorem search_url_post_failure_kind :
    _get_search_url torontoSearchConfig (mkQuery torontoSearchConfig.keywords) "post" =
      .error (.notImplementedError "") ∧
    failsWithValueError
      (_get_search_url torontoSearchConfig (mkQuery torontoSearchConfig.keywords) "post") =
      false :=
  ⟨rfl, rfl⟩

/-- C3 amended: `"get"` returns an absolute URL without failing (for the five
preference remoteness values, the keys of `REMOTENESS_TO_QUERY`); `"post"`
fails with a bare `NotImplementedError`; every other method fails with the
`ValueError` naming the unsupported method. -/
theorem search_url_method_dispatch (cfg : SearchConfig) (query method : String)
    (hrem : cfg.remoteness ≠ .UNKNOWN) :
    (method = "get" → ∃ u, _get_search_url cfg query method = .ok u ∧
      "https://".data <+: u.data) ∧
    (method = "post" →
      _get_search_url cfg query method = .error (.notImplementedError "")) ∧
    (method ≠ "get" → method ≠ "post" →
      _get_search_url cfg query method =
        .error (.valueError ("No html method " ++ method ++ " exists"))) := by
  refine ⟨?_, ?_, ?_⟩
  · intro hm
    subst hm
    cases hq : REMOTENESS_TO_QUERY cfg.remoteness with
    | none =>
      exfalso
      cases hr : cfg.remoteness <;> rw [hr] at hq hrem <;>
        simp [REMOTENESS_TO_QUERY] at hq hrem
    | some frag =>
      refine ⟨"https://www.indeed." ++ cfg.domain ++ "/jobs?q=" ++ query
        ++ "&l=" ++ String.mk (py_replace_char ' ' ['+'] cfg.city.data)
        ++ "%2C+" ++ String.mk (py_upper cfg.province_or_state.data)
        ++ "&radius=" ++ toString (_quantize_radius cfg.radius)
        ++ "&limit=" ++ toString MAX_RESULTS_PER_INDEED_PAGE
        ++ "&filter=" ++ (if cfg.return_similar_results then "1" else "0")
        ++ frag, ?_, ?_⟩
      · simp [_get_search_url, hq]
      · have h1 : "https://".data <+: "https://www.indeed.".data := by decide
        refine h1.trans ?_
        simp only [String.data_append, List.append_assoc]
        exact List.prefix_append _ _
  · intro hm
    subst hm
    rfl
  · intro h1 h2
    simp only [_get_search_url]
    rw [if_neg h1, if_neg h2]

/-- C3 amended witness: the Toronto configuration at the unsupported method
`"put"`, and at `"get"` and `"post"`. -/
theorem search_url_method_dispatch_witness :
    torontoSearchConfig.remoteness ≠ Remoteness.UNKNOWN ∧
    _get_search_url torontoSearchConfig (mkQuery torontoSearchConfig.keywords) "put" =
      .error (.valueError ("No html method " ++ "put" ++ " exists")) :=
  ⟨by decide,
    (search_url_method_dispatch torontoSearchConfig (mkQuery torontoSearchConfig.keywords)
      "put" (by decide)).2.2 (by decide) (by decide)⟩

/-- C8: the fetcher submits exactly one page task per page index in
`[0, pages)`, the task for page `p` requesting the base URL with
`start = p * 50` appended; in the spec's end-to-end scenario (Toronto,
radius 12, remoteness ANY, a results page reporting 75 results) the search URL
carries the quantized radius 10, the page count is 2, and exactly the two
fetches `start=0` and `start=50` are submitted. -/
theorem page_fetch_offsets_and_scenario :
    (∀ search : String, ∀ pages : Nat,
      (submitted_page_urls search pages).length = pages ∧
      (∀ page : Nat, page < pages →
        (submitted_page_urls search pages)[page]? =
          some (search ++ "&start=" ++ toString (page * 50)))) ∧
    _get_search_url torontoSearchConfig (mkQuery torontoSearchConfig.keywords) "get" =
      .ok torontoSearchUrl ∧
    "radius=10".data <:+: torontoSearchUrl.data ∧
    _quantize_radius 12 = 10 ∧
    _get_num_search_result_pages ⟨some "Jobs 1 to 50 of 75 results"⟩ torontoSearchUrl 0 =
      .ok 2 ∧
    submitted_page_urls torontoSearchUrl 2 =
      [torontoSearchUrl ++ "&start=0", torontoSearchUrl ++ "&start=50"] := by
  refine ⟨?_, by rfl, by decide, by rfl, by rfl, by rfl⟩
  intro search pages
  constructor
  · simp [submitted_page_urls]
  · intro page hp
    simp [submitted_page_urls, _get_job_soups_from_search_page_url,
      List.getElem?_map, List.getElem?_range hp, MAX_RESULTS_PER_INDEED_PAGE]

/-- C8 witness: the general offset law at `search = "s"`, `pages = 2`,
`page = 1`. -/
theorem page_fetch_offsets_and_scenario_witness :
    (1 : Nat) < 2 ∧
    (submitted_page_urls "s" 2)[1]? = some ("s" ++ "&start=" ++ toString (1 * 50)) :=
  ⟨by norm_num, (page_fetch_offsets_and_scenario.1 "s" 2).2 1 (by norm_num)⟩

end JobFunnel
